import Mathlib

/-!
Shallow embedding of `pg-tracing-otel-forwarder` (Go): `main.go` and the
span-fetching file (`fetchSpans`, `setMetricIfValue`, `setMetricIfValueFloat`,
`FixedIdGenerator`).

Modelling conventions:
* Go machine integers become `Int`/`Nat`; unsigned conversion `uint64(x)` is
  `toUint64` (reduction mod 2^64); `time.Duration(d)` on a `uint64` is the
  two's-complement reinterpretation `int64OfUint64`.
* `time.Time` values are modelled as `Int` nanoseconds since the epoch;
  `time.Time.Add` is integer addition of nanoseconds.
* Go `float64` payloads are modelled as `ℚ`; the forwarder only compares them
  with zero and carries them through, so no rounding behaviour is involved.
* Byte slices are `List Nat` (each entry a byte value).
* `database/sql` nullable scan targets become structures with a `valid` flag,
  mirroring `sql.NullInt64`, `sql.NullFloat64`, `sql.NullString`.
-/

namespace PgTracing

/-- Model of `sql.NullString`: a string together with its validity (non-NULL) flag. -/
structure NullString where
  valid : Bool
  string : String
deriving DecidableEq, Repr

/-- Model of `sql.NullInt64`: an int64 together with its validity (non-NULL) flag. -/
structure NullInt64 where
  valid : Bool
  int64 : Int
deriving DecidableEq, Repr

/-- Model of `sql.NullFloat64`: a float64 (modelled as `ℚ`) with its validity flag. -/
structure NullFloat64 where
  valid : Bool
  float64 : ℚ
deriving DecidableEq, Repr

/-- An OpenTelemetry attribute value as used by this program:
`attribute.Int64`/`attribute.Int`, `attribute.Float64`, `attribute.String`. -/
inductive AttrValue where
  | int (i : Int)
  | float (q : ℚ)
  | str (s : String)
deriving DecidableEq, Repr

/-- Model of `attribute.KeyValue`: a key/value pair. -/
abbrev KeyValue := String × AttrValue

/-- Transcription of `setMetricIfValue` from the span-fetching file: append an int64 metric
attribute only when the scanned value is non-NULL and non-zero. -/
def setMetricIfValue (attributes : List KeyValue) (key : String)
    (value : NullInt64) : List KeyValue :=
  if !value.valid || value.int64 == 0 then attributes
  else attributes ++ [(key, AttrValue.int value.int64)]

/-- Transcription of `setMetricIfValueFloat`: same sparsity rule for float64 metrics. -/
def setMetricIfValueFloat (attributes : List KeyValue) (key : String)
    (value : NullFloat64) : List KeyValue :=
  if !value.valid || value.float64 == 0 then attributes
  else attributes ++ [(key, AttrValue.float value.float64)]

/-- Transcription of `BlockStats` from the span-fetching file. -/
structure BlockStats where
  hit : NullInt64
  read : NullInt64
  written : NullInt64
  dirtied : NullInt64
deriving DecidableEq, Repr

/-- Transcription of `BlockTime` from the span-fetching file. -/
structure BlockTime where
  readTime : NullFloat64
  writeTime : NullFloat64
deriving DecidableEq, Repr

/-- One decoded row of `pg_tracing_consume_spans`: the local variables
scanned by `rows.Scan` in `fetchSpans`, with their Go types mapped as in the
file header. -/
structure SpanRecord where
  traceId : Int
  parentId : Int
  spanId : Int
  span_type : String
  span_operation : String
  deparse_info : NullString
  parameters : NullString
  span_start : Int
  span_start_ns : Int
  duration : Nat
  startup : NullInt64
  pid : Int
  subxact_count : Int
  sql_error_code : String
  rowNumber : NullInt64
  planStartupCost : NullFloat64
  planTotalCost : NullFloat64
  planRows : NullFloat64
  planWidth : NullInt64
  sharedBlks : BlockStats
  localBlks : BlockStats
  blkTime : BlockTime
  tempBlks : BlockStats
  tempBlkTime : BlockTime
  wal_records : NullInt64
  wal_fpi : NullInt64
  wal_bytes : NullInt64
  jit_functions : NullInt64
  jit_generation_time : NullFloat64
  jit_inlining_time : NullFloat64
  jit_optimization_time : NullFloat64
  jit_emission_time : NullFloat64
deriving DecidableEq, Repr

/-- Range constraints guaranteed by the Go scan target types of a decodable
row: `traceId`, `parentId`, `spanId` are `int64`; `span_start_ns` is `int16`;
`duration` is a `uint64` scanned from a PostgreSQL `bigint` (so it fits in
the non-negative `int64` range); `pid` and `subxact_count` are `int32`. -/
def Decodable (r : SpanRecord) : Prop :=
  -2 ^ 63 ≤ r.traceId ∧ r.traceId < 2 ^ 63 ∧
  -2 ^ 63 ≤ r.parentId ∧ r.parentId < 2 ^ 63 ∧
  -2 ^ 63 ≤ r.spanId ∧ r.spanId < 2 ^ 63 ∧
  -2 ^ 15 ≤ r.span_start_ns ∧ r.span_start_ns < 2 ^ 15 ∧
  r.duration < 2 ^ 63 ∧
  -2 ^ 31 ≤ r.pid ∧ r.pid < 2 ^ 31 ∧
  -2 ^ 31 ≤ r.subxact_count ∧ r.subxact_count < 2 ^ 31

instance (r : SpanRecord) : Decidable (Decodable r) := by
  unfold Decodable; infer_instance

/-- Go's `uint64(x)` conversion of an `int64` value: reduction mod `2^64`. -/
def toUint64 (i : Int) : Nat := (i % (2 : Int) ^ 64).toNat

/-- Go's `time.Duration(d)` applied to a `uint64` value: reinterpretation of
the bit pattern as a signed `int64`. -/
def int64OfUint64 (n : Nat) : Int :=
  if n < 2 ^ 63 then (n : Int) else (n : Int) - 2 ^ 64

/-- Model of `binary.BigEndian.PutUint64`: the eight big-endian bytes of `v`'s low
64 bits. -/
def putUint64BE (v : Nat) : List Nat :=
  [v / 2 ^ 56 % 256, v / 2 ^ 48 % 256, v / 2 ^ 40 % 256, v / 2 ^ 32 % 256,
   v / 2 ^ 24 % 256, v / 2 ^ 16 % 256, v / 2 ^ 8 % 256, v % 256]

/-- Model of `binary.BigEndian.PutUint64(buf, v)`: it writes into bytes 0..7 of `buf` and
leaves the remaining bytes unchanged. -/
def putUint64Into (buf : List Nat) (v : Nat) : List Nat :=
  putUint64BE v ++ buf.drop 8

/-- Transcription of `traceIdBytes := make([]byte, 16); binary.BigEndian.PutUint64(traceIdBytes[0:16], utraceId)`. -/
def traceIdBytes (u : Nat) : List Nat := putUint64Into (List.replicate 16 0) u

/-- Transcription of `spanIdBytes := make([]byte, 8); binary.BigEndian.PutUint64(spanIdBytes[0:8], uspanId)`. -/
def spanIdBytes (u : Nat) : List Nat := putUint64Into (List.replicate 8 0) u

/-- Transcription of `parentIdBytes := make([]byte, 8); binary.BigEndian.PutUint64(parentIdBytes[0:8], uparentId)`. -/
def parentIdBytes (u : Nat) : List Nat := putUint64Into (List.replicate 8 0) u

/-- Reading a byte buffer back as a big-endian unsigned integer
(`binary.BigEndian.Uint64` on an 8-byte buffer). -/
def readUint64BE (bytes : List Nat) : Nat :=
  bytes.foldl (fun acc b => acc * 256 + b) 0

/-- Widening as §3 and the glossary of the specification describe it:
the 64-bit value is placed "in the low-order bytes of a zero-padded buffer"
of the target width `w` (left-padding with zero bytes). -/
def specWiden (w : Nat) (v : Nat) : List Nat :=
  List.replicate (w - 8) 0 ++ putUint64BE v

/-- The attribute slice built by `fetchSpans` lines 129–165, before the
SQL-error check.  The first `setMetricIfValue` call for `"rows"` is
transcribed as written in the source: its result is not assigned back to
`attributes`. -/
def baseAttributes (r : SpanRecord) : List KeyValue :=
  let attributes : List KeyValue := []
  let _ := setMetricIfValue attributes "rows" r.rowNumber
  let attributes := attributes ++ [("pid", AttrValue.int r.pid)]
  let attributes := attributes ++ [("subxact_count", AttrValue.int r.subxact_count)]
  let attributes := setMetricIfValue attributes "block.shared.hit" r.sharedBlks.hit
  let attributes := setMetricIfValue attributes "block.shared.read" r.sharedBlks.read
  let attributes := setMetricIfValue attributes "block.shared.dirtied" r.sharedBlks.dirtied
  let attributes := setMetricIfValue attributes "block.shared.written" r.sharedBlks.written
  let attributes := setMetricIfValue attributes "block.local.hit" r.localBlks.hit
  let attributes := setMetricIfValue attributes "block.local.read" r.localBlks.read
  let attributes := setMetricIfValue attributes "block.local.dirtied" r.localBlks.dirtied
  let attributes := setMetricIfValue attributes "block.local.written" r.localBlks.written
  let attributes := setMetricIfValueFloat attributes "block.read_time" r.blkTime.readTime
  let attributes := setMetricIfValueFloat attributes "block.write_time" r.blkTime.writeTime
  let attributes := setMetricIfValue attributes "block.temp.read" r.tempBlks.read
  let attributes := setMetricIfValue attributes "block.temp.written" r.tempBlks.written
  let attributes := setMetricIfValueFloat attributes "block.temp.read_time" r.tempBlkTime.readTime
  let attributes := setMetricIfValueFloat attributes "block.temp.write_time" r.tempBlkTime.writeTime
  let attributes := setMetricIfValue attributes "wal.records" r.wal_records
  let attributes := setMetricIfValue attributes "wal.fpi" r.wal_fpi
  let attributes := setMetricIfValue attributes "wal.bytes" r.wal_bytes
  let attributes := setMetricIfValueFloat attributes "plan.startup_cost" r.planStartupCost
  let attributes := setMetricIfValueFloat attributes "plan.total_cost" r.planTotalCost
  let attributes := setMetricIfValueFloat attributes "plan.rows" r.planRows
  let attributes := setMetricIfValue attributes "plan.width" r.planWidth
  let attributes := setMetricIfValue attributes "jit.functions" r.jit_functions
  let attributes := setMetricIfValueFloat attributes "jit.generation_time" r.jit_generation_time
  let attributes := setMetricIfValueFloat attributes "jit.inlining_time" r.jit_inlining_time
  let attributes := setMetricIfValueFloat attributes "jit.optimization_time" r.jit_optimization_time
  let attributes := setMetricIfValueFloat attributes "jit.emission_time" r.jit_emission_time
  attributes

/-- The SQL-error check of `fetchSpans` lines 167–170: two `error.msg`
attributes are appended when the error code is not the success code. -/
def buildAttributes (r : SpanRecord) : List KeyValue :=
  let attributes := baseAttributes r
  if r.sql_error_code ≠ "00000" then
    attributes ++ [("error.msg", AttrValue.str "Query error"),
                   ("error.msg", AttrValue.str r.sql_error_code)]
  else attributes

/-- Model of the `trace.SpanKind` values used by this program. -/
inductive SpanKind where
  | unspecified
  | server
deriving DecidableEq, Repr

/-- Transcription of `FixedIdGenerator` from `main.go`: the installed SDK id generator whose
`NewSpanID` returns `FixedSpanID` and whose `NewIDs` returns
`(FixedTraceID, FixedSpanID)`. -/
structure FixedIdGenerator where
  FixedSpanID : List Nat
  FixedTraceID : List Nat
deriving DecidableEq, Repr

/-- The span name computed in `fetchSpans` lines 194–197: the operation name,
with the deparse info appended after a space when present. -/
def spanName (r : SpanRecord) : String :=
  if r.deparse_info.valid then r.span_operation ++ " " ++ r.deparse_info.string
  else r.span_operation

/-- One span as handed to the tracing SDK by `tracer.Start`/`span.End`:
the parent span context set on the context (trace and parent span id bytes),
the span id the installed generator supplies at `Start`, the name, kind,
attributes, and the explicit start and end timestamps (nanoseconds). -/
structure EmittedSpan where
  traceId : List Nat
  parentSpanId : List Nat
  spanId : List Nat
  name : String
  kind : SpanKind
  attributes : List KeyValue
  startTs : Int
  endTs : Int
deriving DecidableEq, Repr

/-- The span-emission part of one `fetchSpans` loop iteration (lines
172–207), given the generator state `g` at the `tracer.Start` call:
`spanStartNs := span_start.Add(time.Duration(span_start_ns))`,
`spanEndNs := spanStartNs.Add(time.Duration(duration))`, the parent span
context carries `traceIdBytes`/`parentIdBytes`, and the span id is whatever
the generator returns (`g.FixedSpanID`). -/
def startSpan (g : FixedIdGenerator) (r : SpanRecord) : EmittedSpan :=
  let spanStartNs := r.span_start + r.span_start_ns
  { traceId := traceIdBytes (toUint64 r.traceId)
    parentSpanId := parentIdBytes (toUint64 r.parentId)
    spanId := g.FixedSpanID
    name := spanName r
    kind := SpanKind.server
    attributes := buildAttributes r
    startTs := spanStartNs
    endTs := spanStartNs + int64OfUint64 r.duration }

/-- One full loop iteration on a decoded record: line 200 first overwrites
the generator's `FixedSpanID` with the record's widened span id, then the
span is started (and immediately ended).  Returns the generator state at the
`tracer.Start` call together with the emitted span. -/
def processRecord (g : FixedIdGenerator) (r : SpanRecord) :
    FixedIdGenerator × EmittedSpan :=
  let g' := { g with FixedSpanID := spanIdBytes (toUint64 r.spanId) }
  (g', startSpan g' r)

/-- The `fetchSpans` row loop over the fetched rows, each row being either a
decoded `SpanRecord` or a decode failure (`none`, on which `rows.Scan`
errors and `log.Fatal` aborts the whole run).  Returns the sequence of
(generator state at `Start`, emitted span) pairs and whether the run was
aborted fatally. -/
def fetchSpans : FixedIdGenerator → List (Option SpanRecord) →
    List (FixedIdGenerator × EmittedSpan) × Bool
  | _, [] => ([], false)
  | _, none :: _ => ([], true)
  | g, some r :: rest =>
    let p := processRecord g r
    let out := fetchSpans p.1 rest
    (p :: out.1, out.2)

/-! ### Helper lemmas about the attribute construction -/

/-- The optional attribute segment contributed by one `setMetricIfValue`
call. -/
def optMetricInt (key : String) (value : NullInt64) : List KeyValue :=
  if !value.valid || value.int64 == 0 then []
  else [(key, AttrValue.int value.int64)]

/-- The optional attribute segment contributed by one
`setMetricIfValueFloat` call. -/
def optMetricFloat (key : String) (value : NullFloat64) : List KeyValue :=
  if !value.valid || value.float64 == 0 then []
  else [(key, AttrValue.float value.float64)]

/-- The attribute segment contributed by the SQL-error check. -/
def errAttrs (r : SpanRecord) : List KeyValue :=
  if r.sql_error_code ≠ "00000" then
    [("error.msg", AttrValue.str "Query error"),
     ("error.msg", AttrValue.str r.sql_error_code)]
  else []

theorem setMetricIfValue_eq (a : List KeyValue) (key : String) (v : NullInt64) :
    setMetricIfValue a key v = a ++ optMetricInt key v := by
  unfold setMetricIfValue optMetricInt
  split <;> simp

theorem setMetricIfValueFloat_eq (a : List KeyValue) (key : String)
    (v : NullFloat64) :
    setMetricIfValueFloat a key v = a ++ optMetricFloat key v := by
  unfold setMetricIfValueFloat optMetricFloat
  split <;> simp

theorem buildAttributes_eq (r : SpanRecord) :
    buildAttributes r = baseAttributes r ++ errAttrs r := by
  unfold buildAttributes errAttrs
  split <;> simp

theorem baseAttributes_eq (r : SpanRecord) :
    baseAttributes r =
      [("pid", AttrValue.int r.pid), ("subxact_count", AttrValue.int r.subxact_count)]
      ++ optMetricInt "block.shared.hit" r.sharedBlks.hit
      ++ optMetricInt "block.shared.read" r.sharedBlks.read
      ++ optMetricInt "block.shared.dirtied" r.sharedBlks.dirtied
      ++ optMetricInt "block.shared.written" r.sharedBlks.written
      ++ optMetricInt "block.local.hit" r.localBlks.hit
      ++ optMetricInt "block.local.read" r.localBlks.read
      ++ optMetricInt "block.local.dirtied" r.localBlks.dirtied
      ++ optMetricInt "block.local.written" r.localBlks.written
      ++ optMetricFloat "block.read_time" r.blkTime.readTime
      ++ optMetricFloat "block.write_time" r.blkTime.writeTime
      ++ optMetricInt "block.temp.read" r.tempBlks.read
      ++ optMetricInt "block.temp.written" r.tempBlks.written
      ++ optMetricFloat "block.temp.read_time" r.tempBlkTime.readTime
      ++ optMetricFloat "block.temp.write_time" r.tempBlkTime.writeTime
      ++ optMetricInt "wal.records" r.wal_records
      ++ optMetricInt "wal.fpi" r.wal_fpi
      ++ optMetricInt "wal.bytes" r.wal_bytes
      ++ optMetricFloat "plan.startup_cost" r.planStartupCost
      ++ optMetricFloat "plan.total_cost" r.planTotalCost
      ++ optMetricFloat "plan.rows" r.planRows
      ++ optMetricInt "plan.width" r.planWidth
      ++ optMetricInt "jit.functions" r.jit_functions
      ++ optMetricFloat "jit.generation_time" r.jit_generation_time
      ++ optMetricFloat "jit.inlining_time" r.jit_inlining_time
      ++ optMetricFloat "jit.optimization_time" r.jit_optimization_time
      ++ optMetricFloat "jit.emission_time" r.jit_emission_time := by
  simp [baseAttributes, setMetricIfValue_eq, setMetricIfValueFloat_eq,
    List.append_assoc]

/-- The keys of an attribute list. -/
def keysOf (attrs : List KeyValue) : List String := attrs.map Prod.fst

theorem mem_keysOf_append (k : String) (a b : List KeyValue) :
    k ∈ keysOf (a ++ b) ↔ k ∈ keysOf a ∨ k ∈ keysOf b := by
  simp [keysOf]

theorem mem_keysOf_cons (k : String) (p : KeyValue) (ps : List KeyValue) :
    k ∈ keysOf (p :: ps) ↔ k = p.1 ∨ k ∈ keysOf ps := by
  simp [keysOf]

theorem mem_keysOf_nil (k : String) : k ∈ keysOf [] ↔ False := by
  simp [keysOf]

theorem mem_keysOf_optInt (k key : String) (v : NullInt64) :
    k ∈ keysOf (optMetricInt key v) ↔
      k = key ∧ v.valid = true ∧ v.int64 ≠ 0 := by
  rcases v with ⟨valid, x⟩
  cases valid <;> by_cases hx : x = 0 <;> simp [optMetricInt, keysOf, hx]

theorem mem_keysOf_optFloat (k key : String) (v : NullFloat64) :
    k ∈ keysOf (optMetricFloat key v) ↔
      k = key ∧ v.valid = true ∧ v.float64 ≠ 0 := by
  rcases v with ⟨valid, x⟩
  cases valid <;> by_cases hx : x = 0 <;> simp [optMetricFloat, keysOf, hx]

theorem mem_keysOf_errAttrs (k : String) (r : SpanRecord) :
    k ∈ keysOf (errAttrs r) ↔
      k = "error.msg" ∧ r.sql_error_code ≠ "00000" := by
  unfold errAttrs
  split <;> simp_all [keysOf]

/-- Membership of a key in the full attribute set, as one disjunction over
the construction segments. -/
theorem mem_keysOf_build (k : String) (r : SpanRecord) :
    k ∈ keysOf (buildAttributes r) ↔
      k = "pid" ∨ k = "subxact_count"
      ∨ (k = "block.shared.hit" ∧ r.sharedBlks.hit.valid = true ∧ r.sharedBlks.hit.int64 ≠ 0)
      ∨ (k = "block.shared.read" ∧ r.sharedBlks.read.valid = true ∧ r.sharedBlks.read.int64 ≠ 0)
      ∨ (k = "block.shared.dirtied" ∧ r.sharedBlks.dirtied.valid = true ∧ r.sharedBlks.dirtied.int64 ≠ 0)
      ∨ (k = "block.shared.written" ∧ r.sharedBlks.written.valid = true ∧ r.sharedBlks.written.int64 ≠ 0)
      ∨ (k = "block.local.hit" ∧ r.localBlks.hit.valid = true ∧ r.localBlks.hit.int64 ≠ 0)
      ∨ (k = "block.local.read" ∧ r.localBlks.read.valid = true ∧ r.localBlks.read.int64 ≠ 0)
      ∨ (k = "block.local.dirtied" ∧ r.localBlks.dirtied.valid = true ∧ r.localBlks.dirtied.int64 ≠ 0)
      ∨ (k = "block.local.written" ∧ r.localBlks.written.valid = true ∧ r.localBlks.written.int64 ≠ 0)
      ∨ (k = "block.read_time" ∧ r.blkTime.readTime.valid = true ∧ r.blkTime.readTime.float64 ≠ 0)
      ∨ (k = "block.write_time" ∧ r.blkTime.writeTime.valid = true ∧ r.blkTime.writeTime.float64 ≠ 0)
      ∨ (k = "block.temp.read" ∧ r.tempBlks.read.valid = true ∧ r.tempBlks.read.int64 ≠ 0)
      ∨ (k = "block.temp.written" ∧ r.tempBlks.written.valid = true ∧ r.tempBlks.written.int64 ≠ 0)
      ∨ (k = "block.temp.read_time" ∧ r.tempBlkTime.readTime.valid = true ∧ r.tempBlkTime.readTime.float64 ≠ 0)
      ∨ (k = "block.temp.write_time" ∧ r.tempBlkTime.writeTime.valid = true ∧ r.tempBlkTime.writeTime.float64 ≠ 0)
      ∨ (k = "wal.records" ∧ r.wal_records.valid = true ∧ r.wal_records.int64 ≠ 0)
      ∨ (k = "wal.fpi" ∧ r.wal_fpi.valid = true ∧ r.wal_fpi.int64 ≠ 0)
      ∨ (k = "wal.bytes" ∧ r.wal_bytes.valid = true ∧ r.wal_bytes.int64 ≠ 0)
      ∨ (k = "plan.startup_cost" ∧ r.planStartupCost.valid = true ∧ r.planStartupCost.float64 ≠ 0)
      ∨ (k = "plan.total_cost" ∧ r.planTotalCost.valid = true ∧ r.planTotalCost.float64 ≠ 0)
      ∨ (k = "plan.rows" ∧ r.planRows.valid = true ∧ r.planRows.float64 ≠ 0)
      ∨ (k = "plan.width" ∧ r.planWidth.valid = true ∧ r.planWidth.int64 ≠ 0)
      ∨ (k = "jit.functions" ∧ r.jit_functions.valid = true ∧ r.jit_functions.int64 ≠ 0)
      ∨ (k = "jit.generation_time" ∧ r.jit_generation_time.valid = true ∧ r.jit_generation_time.float64 ≠ 0)
      ∨ (k = "jit.inlining_time" ∧ r.jit_inlining_time.valid = true ∧ r.jit_inlining_time.float64 ≠ 0)
      ∨ (k = "jit.optimization_time" ∧ r.jit_optimization_time.valid = true ∧ r.jit_optimization_time.float64 ≠ 0)
      ∨ (k = "jit.emission_time" ∧ r.jit_emission_time.valid = true ∧ r.jit_emission_time.float64 ≠ 0)
      ∨ (k = "error.msg" ∧ r.sql_error_code ≠ "00000") := by
  rw [buildAttributes_eq, baseAttributes_eq]
  simp [mem_keysOf_append, mem_keysOf_optInt, mem_keysOf_optFloat,
    mem_keysOf_errAttrs, mem_keysOf_cons, mem_keysOf_nil, or_assoc]

/-! ### Concrete records for witnesses and counterexamples -/

/-- A NULL `sql.NullInt64`. -/
def nullInt : NullInt64 := ⟨false, 0⟩

/-- A NULL `sql.NullFloat64`. -/
def nullFloat : NullFloat64 := ⟨false, 0⟩

/-- Block statistics with all counters NULL. -/
def nullBlockStats : BlockStats := ⟨nullInt, nullInt, nullInt, nullInt⟩

/-- Block times with both timings NULL. -/
def nullBlockTime : BlockTime := ⟨nullFloat, nullFloat⟩

/-- A concrete decodable row: successful query, five returned rows,
everything else NULL or zero. -/
def sampleRecord : SpanRecord where
  traceId := 1
  parentId := 2
  spanId := 3
  span_type := "Select query"
  span_operation := "SELECT 1"
  deparse_info := ⟨false, ""⟩
  parameters := ⟨false, ""⟩
  span_start := 1700000000000000000
  span_start_ns := 250
  duration := 0
  startup := nullInt
  pid := 0
  subxact_count := 0
  sql_error_code := "00000"
  rowNumber := ⟨true, 5⟩
  planStartupCost := nullFloat
  planTotalCost := nullFloat
  planRows := nullFloat
  planWidth := nullInt
  sharedBlks := nullBlockStats
  localBlks := nullBlockStats
  blkTime := nullBlockTime
  tempBlks := nullBlockStats
  tempBlkTime := nullBlockTime
  wal_records := nullInt
  wal_fpi := nullInt
  wal_bytes := nullInt
  jit_functions := nullInt
  jit_generation_time := nullFloat
  jit_inlining_time := nullFloat
  jit_optimization_time := nullFloat
  jit_emission_time := nullFloat

/-- The zero-valued `FixedIdGenerator{}` that `main` constructs. -/
def g0 : FixedIdGenerator := ⟨List.replicate 8 0, List.replicate 16 0⟩

/-! ### Claims -/

/-- C1 (counterexample): the spec's widening rule — the 64-bit value sits in
the low-order bytes of the zero-padded 16-byte trace-ID buffer — does not
match the code.  For the decodable record with `traceId = 1`, the code's
`binary.BigEndian.PutUint64(traceIdBytes[0:16], utraceId)` writes the value
into bytes 0–7 (the high-order half), so the emitted trace ID differs from
the spec's widened form. -/
theorem trace_widening_contradicts_spec :
    Decodable sampleRecord ∧
    (processRecord g0 sampleRecord).2.traceId ≠
      specWiden 16 (toUint64 sampleRecord.traceId) := by
  decide

/-- C1 (amended): the emitted span's trace ID consists of the eight
big-endian bytes of the record's 64-bit `traceId` followed by eight zero
bytes (the value sits in the *high*-order bytes of the 16-byte buffer,
right-padded with zeros), while the span ID and parent span ID are exactly
the spec's widened 8-byte forms of `spanId` and `parentId` (the 64-bit
value fills the whole 8-byte buffer). -/
theorem emitted_ids_widening_layout (g : FixedIdGenerator) (r : SpanRecord) :
    (processRecord g r).2.traceId =
      putUint64BE (toUint64 r.traceId) ++ List.replicate 8 0 ∧
    (processRecord g r).2.spanId = specWiden 8 (toUint64 r.spanId) ∧
    (processRecord g r).2.parentSpanId = specWiden 8 (toUint64 r.parentId) := by
  refine ⟨?_, ?_, ?_⟩ <;>
    simp [processRecord, startSpan, traceIdBytes, spanIdBytes, parentIdBytes,
      putUint64Into, specWiden, List.replicate, List.drop]

/-- C2: widening a 64-bit span ID into the 8-byte span-ID buffer and reading
the buffer back big-endian returns the original value, for every
representable 64-bit input. -/
theorem spanId_widening_roundtrip (v : Nat) (h : v < 2 ^ 64) :
    readUint64BE (spanIdBytes v) = v := by
  simp only [readUint64BE, spanIdBytes, putUint64Into, putUint64BE,
    List.replicate, List.drop, List.append_nil, List.foldl]
  omega

/-- C2 witness: the round-trip at 0 and at the maximum 64-bit value. -/
theorem spanId_widening_roundtrip_witness :
    readUint64BE (spanIdBytes 0) = 0 ∧
    readUint64BE (spanIdBytes 18446744073709551615) = 18446744073709551615 :=
  ⟨spanId_widening_roundtrip 0 (by decide),
   spanId_widening_roundtrip 18446744073709551615 (by decide)⟩

/-- C4: the emitted span starts at the record's wall-clock start time plus
its sub-second nanosecond offset, and ends exactly `duration` nanoseconds
later (no drift), for every decodable record — including `duration = 0`. -/
theorem span_timestamps_exact (g : FixedIdGenerator) (r : SpanRecord)
    (h : Decodable r) :
    (startSpan g r).startTs = r.span_start + r.span_start_ns ∧
    (startSpan g r).endTs = (startSpan g r).startTs + (r.duration : Int) := by
  obtain ⟨-, -, -, -, -, -, -, -, hd, -⟩ := h
  have h1 : int64OfUint64 r.duration = (r.duration : Int) := by
    unfold int64OfUint64; rw [if_pos hd]
  exact ⟨rfl, by simp [startSpan, h1]⟩

/-- C4 witness: the timestamp law at the concrete decodable record, whose
duration is 0. -/
theorem span_timestamps_exact_witness :
    Decodable sampleRecord ∧ sampleRecord.duration = 0 ∧
    ((startSpan g0 sampleRecord).startTs =
        sampleRecord.span_start + sampleRecord.span_start_ns ∧
      (startSpan g0 sampleRecord).endTs =
        (startSpan g0 sampleRecord).startTs + (sampleRecord.duration : Int)) :=
  ⟨by decide, rfl, span_timestamps_exact g0 sampleRecord (by decide)⟩

/-- C7: the emitted span's name is the operation name, with the optional
deparse/detail string appended after a single space when present. -/
theorem span_name_appends_deparse (g : FixedIdGenerator) (r : SpanRecord) :
    (startSpan g r).name =
      if r.deparse_info.valid then
        r.span_operation ++ " " ++ r.deparse_info.string
      else r.span_operation :=
  rfl

/-- C9: the `pid` and `subxact_count` attributes are always present, with
the record's process id and subtransaction count as integer values, even
when those values are zero. -/
theorem pid_subxact_unconditional (g : FixedIdGenerator) (r : SpanRecord) :
    ("pid", AttrValue.int r.pid) ∈ (startSpan g r).attributes ∧
    ("subxact_count", AttrValue.int r.subxact_count) ∈
      (startSpan g r).attributes := by
  have hb : (startSpan g r).attributes = buildAttributes r := rfl
  rw [hb, buildAttributes_eq, baseAttributes_eq]
  constructor <;> simp

theorem mem_optInt_pair (p : KeyValue) (key : String) (v : NullInt64) :
    p ∈ optMetricInt key v ↔
      p = (key, AttrValue.int v.int64) ∧ v.valid = true ∧ v.int64 ≠ 0 := by
  rcases v with ⟨valid, x⟩
  cases valid <;> by_cases hx : x = 0 <;> simp [optMetricInt, hx]

theorem mem_optFloat_pair (p : KeyValue) (key : String) (v : NullFloat64) :
    p ∈ optMetricFloat key v ↔
      p = (key, AttrValue.float v.float64) ∧ v.valid = true ∧ v.float64 ≠ 0 := by
  rcases v with ⟨valid, x⟩
  cases valid <;> by_cases hx : x = 0 <;> simp [optMetricFloat, hx]

theorem mem_errAttrs_pair (p : KeyValue) (r : SpanRecord) :
    p ∈ errAttrs r ↔
      (p = ("error.msg", AttrValue.str "Query error") ∨
        p = ("error.msg", AttrValue.str r.sql_error_code)) ∧
      r.sql_error_code ≠ "00000" := by
  unfold errAttrs
  split <;> simp_all

/-- C3 (counterexample): the sparsity law fails as stated.  The concrete
decodable record has a non-NULL row count of 5, yet no `rows` attribute is
emitted (the source discards the result of that `setMetricIfValue` call),
and it has `pid = 0`, yet the `pid` attribute is present. -/
theorem sparsity_counterexample :
    Decodable sampleRecord ∧
    sampleRecord.rowNumber.valid = true ∧ sampleRecord.rowNumber.int64 = 5 ∧
    "rows" ∉ keysOf (buildAttributes sampleRecord) ∧
    sampleRecord.pid = 0 ∧
    "pid" ∈ keysOf (buildAttributes sampleRecord) := by
  decide

/-- C3 (amended): the present-iff-non-null-and-non-zero law holds for every
nullable numeric metric *except* the row count: the `rows` attribute never
appears (its `setMetricIfValue` result is discarded), and `pid` and
`subxact_count` always appear, zero or not.  For the other metrics the
attribute key is present exactly when the metric is non-NULL and non-zero
(shown for all block, WAL, planner and JIT keys), and a present metric
carries the metric's value (shown for `wal.records`). -/
theorem sparsity_amended (r : SpanRecord) :
    "rows" ∉ keysOf (buildAttributes r)
    ∧ "pid" ∈ keysOf (buildAttributes r)
    ∧ "subxact_count" ∈ keysOf (buildAttributes r)
    ∧ (("wal.records", AttrValue.int r.wal_records.int64) ∈ buildAttributes r
        ↔ r.wal_records.valid = true ∧ r.wal_records.int64 ≠ 0)
    ∧ ("block.shared.hit" ∈ keysOf (buildAttributes r) ↔ r.sharedBlks.hit.valid = true ∧ r.sharedBlks.hit.int64 ≠ 0)
    ∧ ("block.shared.read" ∈ keysOf (buildAttributes r) ↔ r.sharedBlks.read.valid = true ∧ r.sharedBlks.read.int64 ≠ 0)
    ∧ ("block.shared.dirtied" ∈ keysOf (buildAttributes r) ↔ r.sharedBlks.dirtied.valid = true ∧ r.sharedBlks.dirtied.int64 ≠ 0)
    ∧ ("block.shared.written" ∈ keysOf (buildAttributes r) ↔ r.sharedBlks.written.valid = true ∧ r.sharedBlks.written.int64 ≠ 0)
    ∧ ("block.local.hit" ∈ keysOf (buildAttributes r) ↔ r.localBlks.hit.valid = true ∧ r.localBlks.hit.int64 ≠ 0)
    ∧ ("block.local.read" ∈ keysOf (buildAttributes r) ↔ r.localBlks.read.valid = true ∧ r.localBlks.read.int64 ≠ 0)
    ∧ ("block.local.dirtied" ∈ keysOf (buildAttributes r) ↔ r.localBlks.dirtied.valid = true ∧ r.localBlks.dirtied.int64 ≠ 0)
    ∧ ("block.local.written" ∈ keysOf (buildAttributes r) ↔ r.localBlks.written.valid = true ∧ r.localBlks.written.int64 ≠ 0)
    ∧ ("block.read_time" ∈ keysOf (buildAttributes r) ↔ r.blkTime.readTime.valid = true ∧ r.blkTime.readTime.float64 ≠ 0)
    ∧ ("block.write_time" ∈ keysOf (buildAttributes r) ↔ r.blkTime.writeTime.valid = true ∧ r.blkTime.writeTime.float64 ≠ 0)
    ∧ ("block.temp.read" ∈ keysOf (buildAttributes r) ↔ r.tempBlks.read.valid = true ∧ r.tempBlks.read.int64 ≠ 0)
    ∧ ("block.temp.written" ∈ keysOf (buildAttributes r) ↔ r.tempBlks.written.valid = true ∧ r.tempBlks.written.int64 ≠ 0)
    ∧ ("block.temp.read_time" ∈ keysOf (buildAttributes r) ↔ r.tempBlkTime.readTime.valid = true ∧ r.tempBlkTime.readTime.float64 ≠ 0)
    ∧ ("block.temp.write_time" ∈ keysOf (buildAttributes r) ↔ r.tempBlkTime.writeTime.valid = true ∧ r.tempBlkTime.writeTime.float64 ≠ 0)
    ∧ ("wal.records" ∈ keysOf (buildAttributes r) ↔ r.wal_records.valid = true ∧ r.wal_records.int64 ≠ 0)
    ∧ ("wal.fpi" ∈ keysOf (buildAttributes r) ↔ r.wal_fpi.valid = true ∧ r.wal_fpi.int64 ≠ 0)
    ∧ ("wal.bytes" ∈ keysOf (buildAttributes r) ↔ r.wal_bytes.valid = true ∧ r.wal_bytes.int64 ≠ 0)
    ∧ ("plan.startup_cost" ∈ keysOf (buildAttributes r) ↔ r.planStartupCost.valid = true ∧ r.planStartupCost.float64 ≠ 0)
    ∧ ("plan.total_cost" ∈ keysOf (buildAttributes r) ↔ r.planTotalCost.valid = true ∧ r.planTotalCost.float64 ≠ 0)
    ∧ ("plan.rows" ∈ keysOf (buildAttributes r) ↔ r.planRows.valid = true ∧ r.planRows.float64 ≠ 0)
    ∧ ("plan.width" ∈ keysOf (buildAttributes r) ↔ r.planWidth.valid = true ∧ r.planWidth.int64 ≠ 0)
    ∧ ("jit.functions" ∈ keysOf (buildAttributes r) ↔ r.jit_functions.valid = true ∧ r.jit_functions.int64 ≠ 0)
    ∧ ("jit.generation_time" ∈ keysOf (buildAttributes r) ↔ r.jit_generation_time.valid = true ∧ r.jit_generation_time.float64 ≠ 0)
    ∧ ("jit.inlining_time" ∈ keysOf (buildAttributes r) ↔ r.jit_inlining_time.valid = true ∧ r.jit_inlining_time.float64 ≠ 0)
    ∧ ("jit.optimization_time" ∈ keysOf (buildAttributes r) ↔ r.jit_optimization_time.valid = true ∧ r.jit_optimization_time.float64 ≠ 0)
    ∧ ("jit.emission_time" ∈ keysOf (buildAttributes r) ↔ r.jit_emission_time.valid = true ∧ r.jit_emission_time.float64 ≠ 0) := by
  have hval : ("wal.records", AttrValue.int r.wal_records.int64) ∈ buildAttributes r
      ↔ r.wal_records.valid = true ∧ r.wal_records.int64 ≠ 0 := by
    rw [buildAttributes_eq, baseAttributes_eq]
    simp [mem_optInt_pair, mem_optFloat_pair, mem_errAttrs_pair]
  refine ⟨?_, ?_, ?_, hval, ?_, ?_, ?_, ?_, ?_, ?_, ?_, ?_, ?_, ?_, ?_, ?_,
    ?_, ?_, ?_, ?_, ?_, ?_, ?_, ?_, ?_, ?_, ?_, ?_, ?_, ?_⟩ <;>
    simp [mem_keysOf_build]

/-- C5: an error attribute (`error.msg`) appears on the emitted span exactly
when the record's SQL error code differs from the success code `"00000"`,
and either way the record is still turned into exactly one emitted span and
processing does not abort. -/
theorem error_attribute_iff_nonsuccess (g : FixedIdGenerator) (r : SpanRecord) :
    ("error.msg" ∈ keysOf ((startSpan g r).attributes) ↔
      r.sql_error_code ≠ "00000") ∧
    fetchSpans g [some r] = ([processRecord g r], false) := by
  constructor
  · have hb : (startSpan g r).attributes = buildAttributes r := rfl
    rw [hb]
    simp [mem_keysOf_build]
  · rfl

/-- The list of attribute keys that the metric mapping can produce (no
error-related key among them). -/
def metricKeys : List String :=
  ["pid", "subxact_count",
   "block.shared.hit", "block.shared.read", "block.shared.dirtied",
   "block.shared.written", "block.local.hit", "block.local.read",
   "block.local.dirtied", "block.local.written", "block.read_time",
   "block.write_time", "block.temp.read", "block.temp.written",
   "block.temp.read_time", "block.temp.write_time", "wal.records",
   "wal.fpi", "wal.bytes", "plan.startup_cost", "plan.total_cost",
   "plan.rows", "plan.width", "jit.functions", "jit.generation_time",
   "jit.inlining_time", "jit.optimization_time", "jit.emission_time"]

/-- C10: when the SQL error code is not `"00000"`, exactly two attributes
are appended after the metric attributes, both under the same key
`error.msg`: first the fixed string `"Query error"`, then the error code
itself; every other attribute key comes from the metric key list, which
contains no error-related key. -/
theorem error_attrs_exactly_two_msgs (r : SpanRecord)
    (h : r.sql_error_code ≠ "00000") :
    buildAttributes r =
      baseAttributes r ++ [("error.msg", AttrValue.str "Query error"),
                           ("error.msg", AttrValue.str r.sql_error_code)] ∧
    ∀ k ∈ keysOf (baseAttributes r), k ∈ metricKeys := by
  constructor
  · unfold buildAttributes
    rw [if_pos h]
  · intro k hk
    rw [baseAttributes_eq] at hk
    simp [mem_keysOf_append, mem_keysOf_optInt, mem_keysOf_optFloat,
      mem_keysOf_cons, mem_keysOf_nil] at hk
    simp only [metricKeys, List.mem_cons, List.not_mem_nil, or_false]
    rcases hk with rfl | rfl | ⟨rfl, -⟩ | ⟨rfl, -⟩ | ⟨rfl, -⟩ | ⟨rfl, -⟩ |
      ⟨rfl, -⟩ | ⟨rfl, -⟩ | ⟨rfl, -⟩ | ⟨rfl, -⟩ | ⟨rfl, -⟩ | ⟨rfl, -⟩ |
      ⟨rfl, -⟩ | ⟨rfl, -⟩ | ⟨rfl, -⟩ | ⟨rfl, -⟩ | ⟨rfl, -⟩ | ⟨rfl, -⟩ |
      ⟨rfl, -⟩ | ⟨rfl, -⟩ | ⟨rfl, -⟩ | ⟨rfl, -⟩ | ⟨rfl, -⟩ | ⟨rfl, -⟩ |
      ⟨rfl, -⟩ | ⟨rfl, -⟩ | ⟨rfl, -⟩ | ⟨rfl, -⟩ <;> decide

/-- C10 witness: a record with error code `42601`. -/
theorem error_attrs_exactly_two_msgs_witness :
    buildAttributes { sampleRecord with sql_error_code := "42601" } =
      baseAttributes { sampleRecord with sql_error_code := "42601" } ++
        [("error.msg", AttrValue.str "Query error"),
         ("error.msg", AttrValue.str "42601")] :=
  (error_attrs_exactly_two_msgs
    { sampleRecord with sql_error_code := "42601" } (by decide)).1

/-- The generator state the loop installs for a record before starting its
span: the record's widened span id, with the trace-ID slot untouched. -/
def genFor (g : FixedIdGenerator) (r : SpanRecord) : FixedIdGenerator :=
  { FixedSpanID := spanIdBytes (toUint64 r.spanId),
    FixedTraceID := g.FixedTraceID }

/-- C6: over any finite sequence of decodable records the loop emits exactly
one span per record in input order, never aborts, and at each record's
`tracer.Start` call the shared generator's mutable span-ID slot holds that
record's widened `spanId` (the generator state paired with each emitted
span is `genFor g r`). -/
theorem fetchSpans_one_span_per_record_in_order (g : FixedIdGenerator)
    (rs : List SpanRecord) :
    fetchSpans g (rs.map some) =
      (rs.map (fun r => (genFor g r, startSpan (genFor g r) r)), false) := by
  induction rs generalizing g with
  | nil => rfl
  | cons r rest ih =>
    simp only [List.map_cons, fetchSpans, processRecord]
    rw [ih]
    simp [genFor]

/-- C8: a row-decode failure aborts the whole run: the spans emitted are
exactly those of the decodable prefix, no span is emitted for the failing
row, and no later row is processed. -/
theorem row_decode_failure_aborts_run (g : FixedIdGenerator)
    (good : List SpanRecord) (rest : List (Option SpanRecord)) :
    fetchSpans g (good.map some ++ none :: rest) =
      ((fetchSpans g (good.map some)).1, true) := by
  induction good generalizing g with
  | nil => rfl
  | cons r tl ih =>
    simp only [List.map_cons, List.cons_append, fetchSpans, List.append_eq]
    rw [ih]

end PgTracing
